import Mathlib

/-!
A shallow embedding of `src/oboe/hello-oboe/src/main/cpp/PlayAudioEngine.cpp`.

The engine is modelled as a pure state machine.  Platform reads (stream
accessors, the monotonic clock, results of platform requests) are supplied as
explicit oracle arguments; platform requests and log statements made by the
engine are recorded in an event trace, in the order the source issues them.
Machine integers (`int32_t`, `int64_t`) are modelled as `Int`; the C++ `/` on
`int64_t` truncates toward zero and is modelled with `Int.tdiv`.  The `double`
latency value is modelled exactly in `ℚ` (its numerator is computed in exact
`int64_t` arithmetic in the source).
-/

/-- Result type `oboe_result_t`: `OBOE_OK`, the two error codes the file
inspects by name, and all other (negative) error codes. -/
inductive OboeResult where
  | ok
  | errorDisconnected
  | errorUnimplemented
  | otherError (code : Int)
deriving DecidableEq

/-- The two sample formats the callback dispatches on
(`OBOE_AUDIO_FORMAT_PCM_FLOAT` vs 16-bit PCM). -/
inductive AudioFormat where
  | pcmFloat
  | pcmI16
deriving DecidableEq

/-- Byte width of one sample: `sizeof(float)` and `sizeof(int16_t)`. -/
def sizeofSample : AudioFormat → Nat
  | .pcmFloat => 4
  | .pcmI16 => 2

/-- Directive type `oboe_data_callback_result_t`. -/
inductive CallbackResult where
  | resultContinue
  | resultStop
deriving DecidableEq

/-- The live stream attributes the engine reads through `mPlayStream` /
`audioStream` accessors. -/
structure OboeStream where
  sampleRate : Int
  framesPerBurst : Int
  bufferSizeInFrames : Int
  deviceId : Int
  format : AudioFormat
deriving DecidableEq

/-- Observable actions of the engine: platform requests and log calls, traced
in source order.  `LOGE`/`LOGW`/`LOGI` are synchronous log side channels;
`traceBegin` is the non-blocking trace sink used inside the callback. -/
inductive Event where
  | logError (msg : String)
  | logWarning (msg : String)
  | logInfo (msg : String)
  | recordSampleRate (rate : Int)
  | recordFramesPerBurst (burst : Int)
  | setBufferSize (frames : Int)
  | requestStart
  | requestStop
  | requestClose
  | timestampProbe
  | tuneCall
  | traceBegin (numFrames underruns bufferSize : Int)
  | renderCall (sampleOffset : Int)
  | spawnRestartThread
deriving DecidableEq

/-- The engine's member fields (`PlayAudioEngine` members referenced by the
`.cpp`).  `mRestartingLock` is modelled by whether it is currently held;
`mCurrentOutputLatencyMillis` (a `double`) is modelled exactly in `ℚ`. -/
structure EngineState where
  playbackDeviceId : Int
  sampleChannels : Int
  sampleRate : Int
  framesPerBurst : Int
  bufferSizeSelection : Int
  isToneOn : Bool
  isLatencyDetectionSupported : Bool
  currentOutputLatencyMillis : ℚ
  playStream : Option OboeStream
  restartingLockHeld : Bool
deriving DecidableEq

/-- Constant `kAudioSampleChannels` (line 25). -/
def kAudioSampleChannels : Int := 2

/-- Constant `kNanosPerMillisecond` (line 26). -/
def kNanosPerMillisecond : Int := 1000000

/-- Modelled from the spec: `OBOE_NANOS_PER_SECOND` comes from an oboe header
that is not in the repository; §4.3 of the spec calls it "1 second in
nanoseconds". -/
def OBOE_NANOS_PER_SECOND : Int := 1000000000

/-- Modelled from the spec: `kBufferSizeAutomatic` is declared in the missing
`PlayAudioEngine.h`; §6 of the spec says a sentinel (n ≤ 0) selects automatic
tuning, so it is modelled as the sentinel value 0, distinct from every
positive burst multiple. -/
def kBufferSizeAutomatic : Int := 0

/-- One `getTimestamp` reply: the result code and, when `ok`, the presented
frame index and its presentation time. -/
structure TimestampQuery where
  result : OboeResult
  frameIndex : Int
  presentationTime : Int
deriving DecidableEq

/-- Platform replies consumed by one `createPlaybackStream()` call:
the `openStream` result and the stream pointer it writes into `mPlayStream`,
the buffer size actually in effect after `setBufferSizeInFrames(burst)`
(the platform may clamp the request), the `requestStart` result, and the
result of the timestamp-support probe. -/
structure OpenPlatform where
  openResult : OboeResult
  openedStream : Option OboeStream
  initialBufferSize : Int
  startResult : OboeResult
  timestampProbeResult : OboeResult
deriving DecidableEq

/-- Platform replies consumed by one `closeOutputStream()` call. -/
structure ClosePlatform where
  stopResult : OboeResult
  closeResult : OboeResult
deriving DecidableEq

/-- Platform reads consumed by one `onAudioReady` invocation: the buffer size
in effect after a fixed-mode resize request (re-read at line 157; the platform
may clamp), the buffer size after the latency tuner's step, the underrun
count, the bytes the external renderer leaves in the buffer when the tone is
on, and the inputs of the latency calculation (timestamp reply, cumulative
frames written, current monotonic time). -/
structure CallbackPlatform where
  bufferSizeAfterSet : Int
  tunedBufferSize : Int
  underrunCount : Int
  renderedBytes : List Nat
  timestamp : TimestampQuery
  framesWritten : Int
  nowNanos : Int
deriving DecidableEq

/-- Line 245: `frameTimeDelta = (frameIndexDelta * OBOE_NANOS_PER_SECOND) /
mSampleRate`, in C++ `int64_t` arithmetic (division truncates toward zero). -/
def frameTimeDelta (frameIndexDelta sampleRate : Int) : Int :=
  (frameIndexDelta * OBOE_NANOS_PER_SECOND).tdiv sampleRate

/-- Result of `calculateCurrentOutputLatencyMillis` (lines 226-259):
`latencyMillis = none` means the out-parameter was left untouched. -/
structure LatencyOutcome where
  latencyMillis : Option ℚ
  events : List Event
  result : OboeResult
deriving DecidableEq

/-- Lines 226-259.  On an `ok` timestamp reply: extrapolate the presentation
time of the next written frame and subtract "now"; on any error: log and leave
the out-parameter untouched.  The `getTimestamp`, `getFramesWritten` and
`AudioClock::getNanoseconds` reads are the explicit arguments. -/
def calculateCurrentOutputLatencyMillis (sampleRate : Int) (ts : TimestampQuery)
    (framesWritten nowNanos : Int) : LatencyOutcome :=
  if ts.result = .ok then
    let writeIndex := framesWritten
    let frameIndexDelta := writeIndex - ts.frameIndex
    let delta := frameTimeDelta frameIndexDelta sampleRate
    let nextFramePresentationTime := ts.presentationTime + delta
    let nextFrameWriteTime := nowNanos
    { latencyMillis :=
        some (((nextFramePresentationTime - nextFrameWriteTime : Int) : ℚ) /
              (kNanosPerMillisecond : ℚ)),
      events := [], result := .ok }
  else
    { latencyMillis := none,
      events := [.logError "Error calculating latency"],
      result := ts.result }

/-- Lines 63-97, `createPlaybackStream()`.  `openStream(&mPlayStream)` writes
the platform's stream pointer into the member unconditionally; on
`result == OBOE_OK && mPlayStream != nullptr` the engine records the rate and
burst size, requests one burst of buffer, requests start (logging a start
failure), and probes timestamp support; otherwise it only logs. -/
def createPlaybackStream (e : EngineState) (p : OpenPlatform) :
    EngineState × List Event :=
  let e1 := { e with playStream := p.openedStream }
  match p.openResult, p.openedStream with
  | .ok, some s =>
    let e2 := { e1 with
      sampleRate := s.sampleRate,
      framesPerBurst := s.framesPerBurst,
      playStream := some { s with bufferSizeInFrames := p.initialBufferSize } }
    let startEvents :=
      if p.startResult ≠ .ok then [Event.logError "Error starting stream"] else []
    let e3 := { e2 with
      isLatencyDetectionSupported := p.timestampProbeResult ≠ .errorUnimplemented }
    (e3, [Event.recordSampleRate s.sampleRate,
          Event.recordFramesPerBurst s.framesPerBurst,
          Event.setBufferSize s.framesPerBurst,
          Event.requestStart] ++ startEvents ++ [Event.timestampProbe])
  | _, _ => (e1, [Event.logError "Failed to create stream"])

/-- Lines 120-133, `closeOutputStream()`.  With a handle: request stop, log a
stop failure, request close, log a close failure — all four steps
unconditional in that order; the function returns nothing (`void`), so no
error can propagate.  Without a handle: nothing happens.  The member
`mPlayStream` is not modified. -/
def closeOutputStream (e : EngineState) (p : ClosePlatform) :
    EngineState × List Event :=
  match e.playStream with
  | some _ =>
    (e, [Event.requestStop]
        ++ (if p.stopResult ≠ .ok then
              [Event.logError "Error stopping output stream"] else [])
        ++ [Event.requestClose]
        ++ (if p.closeResult ≠ .ok then
              [Event.logError "Error closing output stream"] else []))
  | none => (e, [])

/-- Lines 281-295, `restartStream()`.  `try_lock` on `mRestartingLock`: when it
is already held the call only logs a warning and returns (the request is
dropped); otherwise close then open run under the lock, which is released at
the end. -/
def restartStream (e : EngineState) (pc : ClosePlatform) (po : OpenPlatform) :
    EngineState × List Event :=
  if e.restartingLockHeld then
    (e, [Event.logInfo "Restarting stream",
         Event.logWarning "Restart stream operation already in progress - ignoring this request"])
  else
    let locked := { e with restartingLockHeld := true }
    let closed := closeOutputStream locked pc
    let opened := createPlaybackStream closed.1 po
    ({ opened.1 with restartingLockHeld := false },
     Event.logInfo "Restarting stream" :: (closed.2 ++ opened.2))

/-- Lines 51-58, `setDeviceId`.  Stores the requested id, then reads the live
stream's device id (`mPlayStream->getDeviceId()` — an unguarded dereference,
hence `none` when no stream is installed) and restarts when they differ. -/
def setDeviceId (e : EngineState) (deviceId : Int) (pc : ClosePlatform)
    (po : OpenPlatform) : Option (EngineState × List Event) :=
  let e1 := { e with playbackDeviceId := deviceId }
  match e1.playStream with
  | some s =>
    if deviceId ≠ s.deviceId then some (restartStream e1 pc po)
    else some (e1, [])
  | none => none

/-- Lines 135-137, `setToneOn`. -/
def setToneOn (e : EngineState) (isToneOn : Bool) : EngineState :=
  { e with isToneOn := isToneOn }

/-- Lines 301-303, `setBufferSizeInBursts`. -/
def setBufferSizeInBursts (e : EngineState) (numBursts : Int) : EngineState :=
  { e with bufferSizeSelection := numBursts }

/-- Lines 297-299, `getCurrentOutputLatencyMillis`. -/
def getCurrentOutputLatencyMillis (e : EngineState) : ℚ :=
  e.currentOutputLatencyMillis

/-- Lines 273-279, `onError`.  Only `OBOE_ERROR_DISCONNECTED` spawns the
background restart thread; every other code falls through the `if`. -/
def onError (e : EngineState) (error : OboeResult) : EngineState × List Event :=
  if error = .errorDisconnected then (e, [Event.spawnRestartThread])
  else (e, [])

/-- Result of one `onAudioReady` invocation: the updated engine and stream,
the trace of events, the bytes left in the caller's buffer, and the returned
directive. -/
structure CallbackOutcome where
  engine : EngineState
  stream : OboeStream
  events : List Event
  writtenBytes : List Nat
  callbackResult : CallbackResult
deriving DecidableEq

/-- Lines 148-205, `onAudioReady`.  Buffer-size step (automatic: one tuner
step; fixed multiple: resize on mismatch and re-read the clamped size), trace
of the diagnostic counters, render or zero-fill by format and tone flag, then
the latency update when supported, and always `OBOE_CALLBACK_RESULT_CONTINUE`. -/
def onAudioReady (e : EngineState) (audioStream : OboeStream)
    (p : CallbackPlatform) (numFrames : Int) : CallbackOutcome :=
  let bufferSize0 := audioStream.bufferSizeInFrames
  let sized :=
    if e.bufferSizeSelection = kBufferSizeAutomatic then
      ({ audioStream with bufferSizeInFrames := p.tunedBufferSize },
       bufferSize0, [Event.tuneCall])
    else if bufferSize0 ≠ e.bufferSizeSelection * e.framesPerBurst then
      ({ audioStream with bufferSizeInFrames := p.bufferSizeAfterSet },
       p.bufferSizeAfterSet,
       [Event.setBufferSize (e.bufferSizeSelection * e.framesPerBurst)])
    else (audioStream, bufferSize0, [])
  let traceEv := Event.traceBegin numFrames p.underrunCount sized.2.1
  let samplesPerFrame := e.sampleChannels
  let rendered :=
    if e.isToneOn then
      ([Event.renderCall 0]
         ++ (if e.sampleChannels = 2 then [Event.renderCall 1] else []),
       p.renderedBytes)
    else
      (([] : List Event),
       List.replicate
         (((sizeofSample audioStream.format : Int) * samplesPerFrame * numFrames).toNat) 0)
  let latency :=
    if e.isLatencyDetectionSupported then
      let r := calculateCurrentOutputLatencyMillis e.sampleRate p.timestamp
                 p.framesWritten p.nowNanos
      ({ e with currentOutputLatencyMillis :=
           r.latencyMillis.getD e.currentOutputLatencyMillis }, r.events)
    else (e, [])
  { engine := latency.1
    stream := sized.1
    events := sized.2.2 ++ [traceEv] ++ rendered.1 ++ latency.2
    writtenBytes := rendered.2
    callbackResult := .resultContinue }

/-- Predicate picking out `setBufferSizeInFrames` requests in a trace. -/
def isSetBufferEvent : Event → Bool
  | .setBufferSize _ => true
  | _ => false

/-- Predicate picking out the stream lifecycle requests stop/close/start. -/
def isStreamLifecycleEvent : Event → Bool
  | .requestStop => true
  | .requestClose => true
  | .requestStart => true
  | _ => false

/-- Predicate picking out invocations of the external frame renderer. -/
def isRenderEvent : Event → Bool
  | .renderCall _ => true
  | _ => false

/-- Event `a` occurs in `l` strictly before event `b`. -/
def occursBefore (a b : Event) (l : List Event) : Prop :=
  a ∈ l ∧ b ∈ l ∧ l.indexOf a < l.indexOf b

/-- The latency formula exactly as the spec words it (§4.3 steps 3-7, §8):
`((presented_time + delta_frames × 1e9 ÷ sample_rate) − now) ÷ 1e6`, the
division by the sample rate taken on exact integer nanoseconds.  Stated from
the spec's words for comparison against the source function. -/
def specLatencyEstimateMillis
    (presentedFrameIndex presentedTime framesWritten sampleRate now : Int) : ℚ :=
  (((presentedTime +
      ((framesWritten - presentedFrameIndex) * 1000000000) / sampleRate) - now : Int) : ℚ)
    / 1000000

/-- C1: for every (presented_frame_index, presented_time, frames_written,
sample_rate, now) with frames_written ≥ presented_frame_index and
sample_rate > 0, the latency estimate computed by
`calculateCurrentOutputLatencyMillis` is exactly the pure value
`((presented_time + (frames_written − presented_frame_index) × 1e9 ÷
sample_rate) − now) ÷ 1e6` milliseconds, in exact integer nanosecond
arithmetic up to the final division; in particular 480 frames at 48000 Hz
give a 10,000,000 ns presentation-time delta. -/
theorem latency_estimate_matches_spec (pfi pt fw sr now : Int)
    (hfw : pfi ≤ fw) (hsr : 0 < sr) :
    calculateCurrentOutputLatencyMillis sr
        { result := .ok, frameIndex := pfi, presentationTime := pt } fw now
      = { latencyMillis := some (specLatencyEstimateMillis pfi pt fw sr now),
          events := [], result := .ok }
    ∧ frameTimeDelta 480 48000 = 10000000 := by
  constructor
  · have hnn : 0 ≤ (fw - pfi) * OBOE_NANOS_PER_SECOND := by
      have h1 : 0 ≤ fw - pfi := by omega
      have h2 : (0 : Int) ≤ OBOE_NANOS_PER_SECOND := by norm_num [OBOE_NANOS_PER_SECOND]
      exact mul_nonneg h1 h2
    simp only [calculateCurrentOutputLatencyMillis, frameTimeDelta,
      specLatencyEstimateMillis, if_pos rfl]
    rw [Int.tdiv_eq_ediv hnn (le_of_lt hsr)]
    norm_num [OBOE_NANOS_PER_SECOND, kNanosPerMillisecond]
  · decide

/-- Witness for C1 at presented_frame_index = 0, presented_time = 0,
frames_written = 480, sample_rate = 48000, now = 5000000. -/
theorem latency_estimate_matches_spec_witness :
    calculateCurrentOutputLatencyMillis 48000
        { result := .ok, frameIndex := 0, presentationTime := 0 } 480 5000000
      = { latencyMillis := some (specLatencyEstimateMillis 0 0 480 48000 5000000),
          events := [], result := .ok }
    ∧ frameTimeDelta 480 48000 = 10000000 :=
  latency_estimate_matches_spec 0 0 480 48000 5000000 (by decide) (by decide)

/-- C10: `onError` spawns the background restart thread exactly when the
error is the device-disconnected code; on every other code it does nothing at
all — no state change and no observable action. -/
theorem onError_restarts_only_on_disconnect (e : EngineState) (err : OboeResult) :
    onError e err
      = (e, if err = .errorDisconnected then [Event.spawnRestartThread] else []) := by
  by_cases h : err = .errorDisconnected <;> simp [onError, h]

/-- A concrete stream handle used in concrete scenarios. -/
def sampleStream : OboeStream :=
  { sampleRate := 48000, framesPerBurst := 192, bufferSizeInFrames := 192,
    deviceId := 3, format := .pcmFloat }

/-- A concrete engine state used in concrete scenarios. -/
def baseEngine : EngineState :=
  { playbackDeviceId := 0, sampleChannels := 2, sampleRate := 48000,
    framesPerBurst := 192, bufferSizeSelection := 1, isToneOn := false,
    isLatencyDetectionSupported := true, currentOutputLatencyMillis := 0,
    playStream := none, restartingLockHeld := false }

/-- A platform run in which `openStream` succeeds but `requestStart` fails. -/
def startFailPlatform : OpenPlatform :=
  { openResult := .ok, openedStream := some sampleStream,
    initialBufferSize := 192, startResult := .otherError (-1),
    timestampProbeResult := .ok }

/-- A platform run in which `openStream` fails and writes a null stream
pointer. -/
def openFailPlatform : OpenPlatform :=
  { openResult := .otherError (-1), openedStream := none,
    initialBufferSize := 0, startResult := .ok, timestampProbeResult := .ok }

/-- C2 counterexample: when the platform open succeeds but the subsequent
start request fails, the engine is NOT left without a stream handle — the
opened stream remains installed in `mPlayStream`, contradicting the claim
that no live handle remains referenced after a start failure. -/
theorem createPlaybackStream_start_failure_keeps_handle :
    ¬ (createPlaybackStream baseEngine startFailPlatform).1.playStream = none := by
  decide

/-- C2 amended: on an open failure in which the platform writes a null stream
pointer, the engine reports the error and holds no stream handle; on a start
failure after a successful open, the engine reports the error but the opened
stream handle remains installed. -/
theorem createPlaybackStream_failure_handling (e : EngineState)
    (p q : OpenPlatform) (s : OboeStream)
    (hpr : p.openResult ≠ .ok) (hps : p.openedStream = none)
    (hq1 : q.openResult = .ok) (hq2 : q.openedStream = some s)
    (hq3 : q.startResult ≠ .ok) :
    ((createPlaybackStream e p).1.playStream = none
      ∧ Event.logError "Failed to create stream" ∈ (createPlaybackStream e p).2)
    ∧ ((createPlaybackStream e q).1.playStream
         = some { s with bufferSizeInFrames := q.initialBufferSize }
      ∧ Event.logError "Error starting stream" ∈ (createPlaybackStream e q).2) := by
  constructor
  · cases hpo : p.openResult with
    | ok => exact absurd hpo hpr
    | errorDisconnected => simp [createPlaybackStream, hps, hpo]
    | errorUnimplemented => simp [createPlaybackStream, hps, hpo]
    | otherError c => simp [createPlaybackStream, hps, hpo]
  · simp [createPlaybackStream, hq1, hq2, hq3]

/-- Witness for the amended C2 at a concrete failing open and a concrete
failing start. -/
theorem createPlaybackStream_failure_handling_witness :
    ((createPlaybackStream baseEngine openFailPlatform).1.playStream = none
      ∧ Event.logError "Failed to create stream"
          ∈ (createPlaybackStream baseEngine openFailPlatform).2)
    ∧ ((createPlaybackStream baseEngine startFailPlatform).1.playStream
         = some { sampleStream with
                    bufferSizeInFrames := startFailPlatform.initialBufferSize }
      ∧ Event.logError "Error starting stream"
          ∈ (createPlaybackStream baseEngine startFailPlatform).2) :=
  createPlaybackStream_failure_handling baseEngine openFailPlatform
    startFailPlatform sampleStream (by decide) rfl rfl rfl (by decide)

instance (a b : Event) (l : List Event) : Decidable (occursBefore a b l) := by
  unfold occursBefore
  infer_instance

/-- A platform run in which open, start and the timestamp probe all
succeed. -/
def goodOpenPlatform : OpenPlatform :=
  { openResult := .ok, openedStream := some sampleStream,
    initialBufferSize := 192, startResult := .ok,
    timestampProbeResult := .ok }

/-- C8 counterexample: in a concrete fully successful `createPlaybackStream`
run, the hardware-timestamp-support probe does NOT occur before the start
request — the source issues `requestStart` (line 86) and only then probes
`getTimestamp` (line 91), contradicting the claimed order "probed ... and then
the stream is requested to start". -/
theorem timestamp_probe_not_before_start :
    ¬ occursBefore Event.timestampProbe Event.requestStart
        (createPlaybackStream baseEngine goodOpenPlatform).2 := by
  decide

/-- C8 amended: on every successful open, the steps occur in this order:
the stream's sample rate is recorded, frames-per-burst is recorded, the
buffer size is set to exactly one burst, the stream is requested to start
(logging a failure), and then hardware-timestamp support is probed by one
timestamp query whose result is checked against the "unimplemented" error. -/
theorem createPlaybackStream_success_order (e : EngineState) (p : OpenPlatform)
    (s : OboeStream) (h1 : p.openResult = .ok) (h2 : p.openedStream = some s) :
    (createPlaybackStream e p).2
      = [Event.recordSampleRate s.sampleRate,
         Event.recordFramesPerBurst s.framesPerBurst,
         Event.setBufferSize s.framesPerBurst,
         Event.requestStart]
        ++ (if p.startResult ≠ .ok then [Event.logError "Error starting stream"]
            else [])
        ++ [Event.timestampProbe]
    ∧ (createPlaybackStream e p).1.sampleRate = s.sampleRate
    ∧ (createPlaybackStream e p).1.framesPerBurst = s.framesPerBurst
    ∧ (createPlaybackStream e p).1.isLatencyDetectionSupported
        = (p.timestampProbeResult ≠ .errorUnimplemented) := by
  refine ⟨?_, ?_, ?_, ?_⟩ <;> simp [createPlaybackStream, h1, h2]

/-- Witness for the amended C8 at a concrete successful open. -/
theorem createPlaybackStream_success_order_witness :
    (createPlaybackStream baseEngine goodOpenPlatform).2
      = [Event.recordSampleRate sampleStream.sampleRate,
         Event.recordFramesPerBurst sampleStream.framesPerBurst,
         Event.setBufferSize sampleStream.framesPerBurst,
         Event.requestStart]
        ++ (if goodOpenPlatform.startResult ≠ .ok then
              [Event.logError "Error starting stream"] else [])
        ++ [Event.timestampProbe]
    ∧ (createPlaybackStream baseEngine goodOpenPlatform).1.sampleRate
        = sampleStream.sampleRate
    ∧ (createPlaybackStream baseEngine goodOpenPlatform).1.framesPerBurst
        = sampleStream.framesPerBurst
    ∧ (createPlaybackStream baseEngine goodOpenPlatform).1.isLatencyDetectionSupported
        = (goodOpenPlatform.timestampProbeResult ≠ .errorUnimplemented) :=
  createPlaybackStream_success_order baseEngine goodOpenPlatform sampleStream
    rfl rfl

/-- C7: with a stream handle installed, `closeOutputStream` issues the stop
request and then the close request unconditionally — the trace is always
stop, (stop-error log), close, (close-error log) — so a stop failure never
prevents the close attempt, the two failures are logged independently, and
the function (being `void`) propagates no error; with no handle installed it
is a no-op that reports nothing. -/
theorem closeOutputStream_both_steps (e₁ e₂ : EngineState)
    (p₁ p₂ : ClosePlatform) (s : OboeStream)
    (h₁ : e₁.playStream = none) (h₂ : e₂.playStream = some s) :
    closeOutputStream e₁ p₁ = (e₁, [])
    ∧ (closeOutputStream e₂ p₂).2
        = [Event.requestStop]
          ++ (if p₂.stopResult ≠ .ok then
                [Event.logError "Error stopping output stream"] else [])
          ++ [Event.requestClose]
          ++ (if p₂.closeResult ≠ .ok then
                [Event.logError "Error closing output stream"] else [])
    ∧ Event.requestStop ∈ (closeOutputStream e₂ p₂).2
    ∧ Event.requestClose ∈ (closeOutputStream e₂ p₂).2
    ∧ ((Event.logError "Error stopping output stream"
          ∈ (closeOutputStream e₂ p₂).2) ↔ p₂.stopResult ≠ .ok)
    ∧ ((Event.logError "Error closing output stream"
          ∈ (closeOutputStream e₂ p₂).2) ↔ p₂.closeResult ≠ .ok) := by
  obtain ⟨sr, cr⟩ := p₂
  by_cases hs : sr = .ok <;> by_cases hc : cr = .ok <;>
    refine ⟨by simp [closeOutputStream, h₁], ?_, ?_, ?_, ?_, ?_⟩ <;>
    simp [closeOutputStream, h₂, hs, hc]

/-- Witness for C7: an engine with no stream and an engine with a stream,
with both the stop and the close requests failing. -/
theorem closeOutputStream_both_steps_witness :
    closeOutputStream baseEngine { stopResult := .ok, closeResult := .ok }
        = (baseEngine, [])
    ∧ (closeOutputStream { baseEngine with playStream := some sampleStream }
        { stopResult := .otherError (-1), closeResult := .otherError (-2) }).2
        = [Event.requestStop]
          ++ (if ({ stopResult := .otherError (-1), closeResult := .otherError (-2) }
                   : ClosePlatform).stopResult ≠ .ok then
                [Event.logError "Error stopping output stream"] else [])
          ++ [Event.requestClose]
          ++ (if ({ stopResult := .otherError (-1), closeResult := .otherError (-2) }
                   : ClosePlatform).closeResult ≠ .ok then
                [Event.logError "Error closing output stream"] else [])
    ∧ Event.requestStop
        ∈ (closeOutputStream { baseEngine with playStream := some sampleStream }
            { stopResult := .otherError (-1), closeResult := .otherError (-2) }).2
    ∧ Event.requestClose
        ∈ (closeOutputStream { baseEngine with playStream := some sampleStream }
            { stopResult := .otherError (-1), closeResult := .otherError (-2) }).2
    ∧ ((Event.logError "Error stopping output stream"
          ∈ (closeOutputStream { baseEngine with playStream := some sampleStream }
              { stopResult := .otherError (-1), closeResult := .otherError (-2) }).2)
        ↔ ({ stopResult := .otherError (-1), closeResult := .otherError (-2) }
             : ClosePlatform).stopResult ≠ .ok)
    ∧ ((Event.logError "Error closing output stream"
          ∈ (closeOutputStream { baseEngine with playStream := some sampleStream }
              { stopResult := .otherError (-1), closeResult := .otherError (-2) }).2)
        ↔ ({ stopResult := .otherError (-1), closeResult := .otherError (-2) }
             : ClosePlatform).closeResult ≠ .ok) :=
  closeOutputStream_both_steps baseEngine
    { baseEngine with playStream := some sampleStream }
    { stopResult := .ok, closeResult := .ok }
    { stopResult := .otherError (-1), closeResult := .otherError (-2) }
    sampleStream rfl rfl

/-- Concrete engine whose restart guard is currently held. -/
def engineLocked : EngineState := { baseEngine with restartingLockHeld := true }

/-- Concrete engine holding a live stream, guard free. -/
def engineWithStream : EngineState :=
  { baseEngine with playStream := some sampleStream }

/-- Concrete platform in which both stop and close succeed. -/
def okClosePlatform : ClosePlatform := { stopResult := .ok, closeResult := .ok }

/-- C5: when the restart guard is already held, `restartStream` issues no
stream lifecycle request at all (no stop, no close, no start), leaves the
engine state unchanged, and only reports that a restart is already active —
the request is dropped; when the guard is free (shown with a live stream and
a successful open), the run performs exactly one full close+open cycle
(stop, close, start — each exactly once) and releases the guard, so two
restart requests of which the second arrives while the guard is held yield
exactly one cycle. -/
theorem restartStream_mutual_exclusion (e e' : EngineState)
    (pc pc' : ClosePlatform) (po po' : OpenPlatform) (s s' : OboeStream)
    (h : e.restartingLockHeld = true)
    (h' : e'.restartingLockHeld = false) (hs : e'.playStream = some s)
    (ho : po'.openResult = .ok) (hos : po'.openedStream = some s') :
    ((restartStream e pc po).1 = e
      ∧ (restartStream e pc po).2.filter isStreamLifecycleEvent = []
      ∧ Event.logWarning
          "Restart stream operation already in progress - ignoring this request"
          ∈ (restartStream e pc po).2)
    ∧ ((restartStream e' pc' po').2.filter isStreamLifecycleEvent
        = [Event.requestStop, Event.requestClose, Event.requestStart]
      ∧ (restartStream e' pc' po').1.restartingLockHeld = false) := by
  refine ⟨by simp [restartStream, h, isStreamLifecycleEvent], ?_⟩
  obtain ⟨sr, cr⟩ := pc'
  by_cases h1 : sr = .ok <;> by_cases h2 : cr = .ok <;>
    by_cases h3 : po'.startResult = .ok <;>
    simp [restartStream, closeOutputStream, createPlaybackStream, h', hs, ho,
      hos, h1, h2, h3, isStreamLifecycleEvent]

/-- Witness for C5: a locked engine (restart in flight) and a free engine
with a live stream and a fully successful close+open. -/
theorem restartStream_mutual_exclusion_witness :
    ((restartStream engineLocked okClosePlatform goodOpenPlatform).1
        = engineLocked
      ∧ (restartStream engineLocked okClosePlatform
          goodOpenPlatform).2.filter isStreamLifecycleEvent = []
      ∧ Event.logWarning
          "Restart stream operation already in progress - ignoring this request"
          ∈ (restartStream engineLocked okClosePlatform goodOpenPlatform).2)
    ∧ ((restartStream engineWithStream okClosePlatform
          goodOpenPlatform).2.filter isStreamLifecycleEvent
        = [Event.requestStop, Event.requestClose, Event.requestStart]
      ∧ (restartStream engineWithStream okClosePlatform
          goodOpenPlatform).1.restartingLockHeld = false) :=
  restartStream_mutual_exclusion engineLocked engineWithStream okClosePlatform
    okClosePlatform goodOpenPlatform goodOpenPlatform sampleStream sampleStream
    rfl rfl rfl rfl rfl

/-- C6: `setDeviceId` always stores the requested id; it invokes
`restartStream` synchronously exactly when the requested id differs from the
live stream's actual device id, and with the id the live stream already has
it performs no restart and nothing else — the result is just the field
update with an empty trace. -/
theorem setDeviceId_restarts_iff_different (e : EngineState) (s : OboeStream)
    (idSame idDiff : Int) (pc : ClosePlatform) (po : OpenPlatform)
    (hs : e.playStream = some s) (heq : idSame = s.deviceId)
    (hne : idDiff ≠ s.deviceId) :
    setDeviceId e idSame pc po
        = some ({ e with playbackDeviceId := idSame }, [])
    ∧ setDeviceId e idDiff pc po
        = some (restartStream { e with playbackDeviceId := idDiff } pc po) := by
  constructor <;> simp [setDeviceId, hs, heq, hne]

/-- Witness for C6: the live stream has device id 3; setting 3 is a no-op,
setting 7 invokes the restart. -/
theorem setDeviceId_restarts_iff_different_witness :
    setDeviceId engineWithStream 3 okClosePlatform goodOpenPlatform
        = some ({ engineWithStream with playbackDeviceId := 3 }, [])
    ∧ setDeviceId engineWithStream 7 okClosePlatform goodOpenPlatform
        = some (restartStream { engineWithStream with playbackDeviceId := 7 }
                  okClosePlatform goodOpenPlatform) :=
  setDeviceId_restarts_iff_different engineWithStream sampleStream 3 7
    okClosePlatform goodOpenPlatform rfl rfl (by decide)

/-- Concrete callback-cycle platform whose timestamp query fails (timestamp
not yet available). -/
def tsErrorCallbackPlatform : CallbackPlatform :=
  { bufferSizeAfterSet := 192, tunedBufferSize := 192, underrunCount := 0,
    renderedBytes := [],
    timestamp := { result := .otherError (-1), frameIndex := 0,
                   presentationTime := 0 },
    framesWritten := 0, nowNanos := 0 }

/-- C3 counterexample: on a concrete callback invocation whose timestamp
query fails, the failure is NOT absorbed silently — the source calls `LOGE`
(line 255), a synchronous log side channel, inside the real-time callback
path. -/
theorem timestamp_error_logs_synchronously :
    Event.logError "Error calculating latency"
      ∈ (onAudioReady engineWithStream sampleStream tsErrorCallbackPlatform
           192).events := by
  decide

/-- C3 amended: when latency detection is on and the timestamp query fails,
the cached latency value is left unchanged for that cycle and the failure is
reported through a synchronous error log (not silently); the callback still
returns the continue directive, and indeed every invocation whatsoever
returns continue and never stop. -/
theorem onAudioReady_timestamp_error_behavior (e : EngineState)
    (s : OboeStream) (p : CallbackPlatform) (n : Int)
    (hsup : e.isLatencyDetectionSupported = true)
    (hts : p.timestamp.result ≠ .ok) :
    (onAudioReady e s p n).engine.currentOutputLatencyMillis
        = e.currentOutputLatencyMillis
    ∧ Event.logError "Error calculating latency" ∈ (onAudioReady e s p n).events
    ∧ (onAudioReady e s p n).callbackResult = .resultContinue
    ∧ ∀ (e₀ : EngineState) (s₀ : OboeStream) (p₀ : CallbackPlatform) (n₀ : Int),
        (onAudioReady e₀ s₀ p₀ n₀).callbackResult = .resultContinue := by
  refine ⟨?_, ?_, rfl, fun _ _ _ _ => rfl⟩ <;>
    simp [onAudioReady, calculateCurrentOutputLatencyMillis, hsup, hts]

/-- Witness for the amended C3 at the concrete failing-timestamp cycle. -/
theorem onAudioReady_timestamp_error_behavior_witness :
    (onAudioReady engineWithStream sampleStream tsErrorCallbackPlatform
        192).engine.currentOutputLatencyMillis
      = engineWithStream.currentOutputLatencyMillis
    ∧ Event.logError "Error calculating latency"
        ∈ (onAudioReady engineWithStream sampleStream tsErrorCallbackPlatform
             192).events
    ∧ (onAudioReady engineWithStream sampleStream tsErrorCallbackPlatform
        192).callbackResult = .resultContinue
    ∧ ∀ (e₀ : EngineState) (s₀ : OboeStream) (p₀ : CallbackPlatform) (n₀ : Int),
        (onAudioReady e₀ s₀ p₀ n₀).callbackResult = .resultContinue :=
  onAudioReady_timestamp_error_behavior engineWithStream sampleStream
    tsErrorCallbackPlatform 192 rfl (by decide)

/-- C4: in fixed buffer-size mode (selection ≠ automatic): when the live
buffer size read at entry already equals selection × burst, no buffer-size
request is issued and that entry value is the one used for the rest of the
cycle (it is the value forwarded to the trace sink) with the stream left
untouched; when it differs, exactly one request for selection × burst frames
is issued, and the buffer size used for the rest of the cycle is the value
re-read from the stream — the platform-clamped `bufferSizeAfterSet` — not the
requested target. -/
theorem onAudioReady_fixed_buffer_mode (e : EngineState)
    (sEq sNe : OboeStream) (pEq pNe : CallbackPlatform) (nEq nNe : Int)
    (hsel : e.bufferSizeSelection ≠ kBufferSizeAutomatic)
    (hEq : sEq.bufferSizeInFrames = e.bufferSizeSelection * e.framesPerBurst)
    (hNe : sNe.bufferSizeInFrames ≠ e.bufferSizeSelection * e.framesPerBurst) :
    ((onAudioReady e sEq pEq nEq).events.filter isSetBufferEvent = []
      ∧ Event.traceBegin nEq pEq.underrunCount sEq.bufferSizeInFrames
          ∈ (onAudioReady e sEq pEq nEq).events
      ∧ (onAudioReady e sEq pEq nEq).stream = sEq)
    ∧ ((onAudioReady e sNe pNe nNe).events.filter isSetBufferEvent
        = [Event.setBufferSize (e.bufferSizeSelection * e.framesPerBurst)]
      ∧ Event.traceBegin nNe pNe.underrunCount pNe.bufferSizeAfterSet
          ∈ (onAudioReady e sNe pNe nNe).events
      ∧ (onAudioReady e sNe pNe nNe).stream
          = { sNe with bufferSizeInFrames := pNe.bufferSizeAfterSet }) := by
  constructor
  · cases ht : e.isToneOn <;> by_cases hch : e.sampleChannels = 2 <;>
      cases hl : e.isLatencyDetectionSupported <;>
      by_cases hts : pEq.timestamp.result = .ok <;>
      simp [onAudioReady, calculateCurrentOutputLatencyMillis, hsel, hEq, ht,
        hch, hl, hts, isSetBufferEvent]
  · cases ht : e.isToneOn <;> by_cases hch : e.sampleChannels = 2 <;>
      cases hl : e.isLatencyDetectionSupported <;>
      by_cases hts : pNe.timestamp.result = .ok <;>
      simp [onAudioReady, calculateCurrentOutputLatencyMillis, hsel, hNe, ht,
        hch, hl, hts, isSetBufferEvent]

/-- Witness for C4: selection 1 with burst 192; a stream already at 192
frames and a stream at 100 frames (the platform clamps the 192-frame request
to 192). -/
theorem onAudioReady_fixed_buffer_mode_witness :
    ((onAudioReady engineWithStream sampleStream tsErrorCallbackPlatform
        192).events.filter isSetBufferEvent = []
      ∧ Event.traceBegin 192 tsErrorCallbackPlatform.underrunCount
          sampleStream.bufferSizeInFrames
          ∈ (onAudioReady engineWithStream sampleStream tsErrorCallbackPlatform
               192).events
      ∧ (onAudioReady engineWithStream sampleStream tsErrorCallbackPlatform
          192).stream = sampleStream)
    ∧ ((onAudioReady engineWithStream
          { sampleStream with bufferSizeInFrames := 100 }
          tsErrorCallbackPlatform 192).events.filter isSetBufferEvent
        = [Event.setBufferSize
            (engineWithStream.bufferSizeSelection
              * engineWithStream.framesPerBurst)]
      ∧ Event.traceBegin 192 tsErrorCallbackPlatform.underrunCount
          tsErrorCallbackPlatform.bufferSizeAfterSet
          ∈ (onAudioReady engineWithStream
               { sampleStream with bufferSizeInFrames := 100 }
               tsErrorCallbackPlatform 192).events
      ∧ (onAudioReady engineWithStream
          { sampleStream with bufferSizeInFrames := 100 }
          tsErrorCallbackPlatform 192).stream
          = { { sampleStream with bufferSizeInFrames := 100 } with
                bufferSizeInFrames := tsErrorCallbackPlatform.bufferSizeAfterSet }) :=
  onAudioReady_fixed_buffer_mode engineWithStream sampleStream
    { sampleStream with bufferSizeInFrames := 100 } tsErrorCallbackPlatform
    tsErrorCallbackPlatform 192 192 (by decide) rfl (by decide)

/-- C9: with the tone disabled, for either sample format, the callback writes
exactly numFrames × channel_count × sizeof(format) zero bytes into the
supplied buffer and invokes no renderer. -/
theorem onAudioReady_tone_off_zero_fill (e : EngineState) (s : OboeStream)
    (p : CallbackPlatform) (n : Int)
    (htone : e.isToneOn = false) (hn : 0 ≤ n) (hch : 0 ≤ e.sampleChannels) :
    (onAudioReady e s p n).writtenBytes
        = List.replicate
            (sizeofSample s.format * e.sampleChannels.toNat * n.toNat) 0
    ∧ (onAudioReady e s p n).events.filter isRenderEvent = [] := by
  have hmain : ((sizeofSample s.format : Int) * e.sampleChannels * n).toNat
      = sizeofSample s.format * e.sampleChannels.toNat * n.toNat := by
    obtain ⟨c, hc⟩ := Int.eq_ofNat_of_zero_le hch
    obtain ⟨m, hm⟩ := Int.eq_ofNat_of_zero_le hn
    rw [hc, hm]
    norm_cast
  constructor
  · simp [onAudioReady, htone, hmain]
  · by_cases hb : e.bufferSizeSelection = kBufferSizeAutomatic <;>
      by_cases hB : s.bufferSizeInFrames
          = e.bufferSizeSelection * e.framesPerBurst <;>
      cases hl : e.isLatencyDetectionSupported <;>
      by_cases hts : p.timestamp.result = .ok <;>
      simp [onAudioReady, calculateCurrentOutputLatencyMillis, htone, hb, hB,
        hl, hts, isRenderEvent]

/-- Witness for C9 at a concrete tone-off float-format cycle of 192 frames in
stereo: 1536 zero bytes and no render call. -/
theorem onAudioReady_tone_off_zero_fill_witness :
    (onAudioReady engineWithStream sampleStream tsErrorCallbackPlatform
        192).writtenBytes
      = List.replicate
          (sizeofSample sampleStream.format
            * engineWithStream.sampleChannels.toNat * (192 : Int).toNat) 0
    ∧ (onAudioReady engineWithStream sampleStream tsErrorCallbackPlatform
        192).events.filter isRenderEvent = [] :=
  onAudioReady_tone_off_zero_fill engineWithStream sampleStream
    tsErrorCallbackPlatform 192 rfl (by decide) (by decide)
